import Mathlib

/-!
Shallow embedding of `src/doc_chat.py` (the Doc-Chat Streamlit app).

The app keeps three pieces of per-session state (`st.session_state`):
`messages` (the chat transcript), `vector_store_id` (the active knowledge
base, nullable) and `file_ids` (the handles of uploaded files).  All
provider calls (OpenAI file upload, vector-store creation, attaching a
file, retrieval-augmented chat) are modelled by their outcomes, supplied
as parameters: `some`/`ok` for a normal return, `none`/`err` for a raised
exception.  Each user action (Process Documents, Clear All Documents,
asking a question in the chat box) becomes a pure state transformer that
also emits the list of provider calls it performed, so that claims of the
form "the provider is never invoked" are provable about the trace.
-/

namespace DocChat

/-- One chat message, as the dict literals on lines 125/170 of
`doc_chat.py`: a role string and a content string. -/
structure Message where
  role : String
  content : String
deriving DecidableEq, Repr

/-- The session state of the app: `st.session_state.messages`,
`st.session_state.vector_store_id` and `st.session_state.file_ids`. -/
structure SessionState where
  messages : List Message
  vector_store_id : Option String
  file_ids : List String
deriving DecidableEq, Repr

/-- Initial session state (lines 11-18 of `doc_chat.py`): empty
transcript, no vector store, no file ids. -/
def initState : SessionState :=
  { messages := [], vector_store_id := none, file_ids := [] }

/-- Provider calls observable in a trace.  `uploadAttempt` records that
`client.files.create` was invoked for a given display name,
`attachAttempt` that `client.vector_stores.files.create` was invoked for
a given file id, `chatCall` that `client.responses.create` was invoked. -/
inductive Event where
  | uploadAttempt : String → Event
  | attachAttempt : String → Event
  | chatCall : Event
deriving DecidableEq, Repr

/-- `upload_file_to_openai` (lines 34-48).  The document bytes are written
to a transient file (`NamedTemporaryFile(delete=False)`), so the file
exists when the `try` block starts.  `uploadResponse` is the outcome of
`client.files.create`: `some fid` when the provider returns a response
with id `fid`, `none` when the call raises.  The result is the returned
handle (`response.id` or `None`) paired with whether the transient file
still exists afterwards: on success `os.remove` runs on line 42; on
failure the `except` branch removes the file if it still exists
(lines 46-47). -/
def upload_file_to_openai (uploadResponse : Option String) :
    Option String × Bool :=
  let tmpFileExists := true
  match uploadResponse with
  | some fid => (some fid, false)
  | none => (none, if tmpFileExists then false else tmpFileExists)

/-- Provider outcomes for one file of a Process Documents batch: the
display name of the uploaded file, the outcome of `client.files.create`
for it, and whether `client.vector_stores.files.create` returns a truthy
result (`attachOk = false` models both a raised exception, which
`add_file_to_vector_store` turns into `None`, and a falsy result). -/
structure FileOutcome where
  name : String
  uploadResponse : Option String
  attachOk : Bool
deriving DecidableEq, Repr

/-- One iteration of the per-file loop (lines 86-95): upload the file;
if a handle came back, append it to `st.session_state.file_ids` and then
try to attach it to the vector store.  The attach outcome only selects
the success or error banner; the handle stays in the list either way. -/
def processFile (s : SessionState) (f : FileOutcome) :
    SessionState × List Event :=
  let (fileId, _) := upload_file_to_openai f.uploadResponse
  match fileId with
  | none => (s, [Event.uploadAttempt f.name])
  | some fid =>
      ({ s with file_ids := s.file_ids ++ [fid] },
       [Event.uploadAttempt f.name, Event.attachAttempt fid])

/-- The `for uploaded_file in uploaded_files:` loop (line 86), one file
after the other, accumulating the provider-call trace. -/
def processLoop (s : SessionState) : List FileOutcome → SessionState × List Event
  | [] => (s, [])
  | f :: fs =>
      let (s1, e1) := processFile s f
      let (s2, e2) := processLoop s1 fs
      (s2, e1 ++ e2)

/-- Provider outcomes for one press of the Process Documents button:
the outcome of `create_vector_store` (`some vid` when
`client.vector_stores.create` returns id `vid`, `none` when it raises)
and the per-file outcomes for the selected files, in order. -/
structure BatchOutcome where
  createResult : Option String
  files : List FileOutcome
deriving DecidableEq, Repr

/-- The Process Documents handler (lines 76-100): create a vector store;
if that returned an id, store it, reset `file_ids` to `[]`, run the
per-file loop, and finally clear the chat history (line 98).  If
`create_vector_store` returned `None` the `if vector_store_id:` guard on
line 81 skips everything, so the state is unchanged and no further
provider call is made. -/
def processDocuments (s : SessionState) (b : BatchOutcome) :
    SessionState × List Event :=
  match b.createResult with
  | none => (s, [])
  | some vid =>
      let s0 : SessionState :=
        { s with vector_store_id := some vid, file_ids := [] }
      let (s1, es) := processLoop s0 b.files
      ({ s1 with messages := [] }, es)

/-- The Clear All Documents handler (lines 107-112): null the vector
store id, empty the file-id list, empty the transcript. -/
def clearAll (_ : SessionState) : SessionState :=
  { messages := [], vector_store_id := none, file_ids := [] }

/-- The fixed reply shown when no client exists (line 136). -/
def keyMessage : String :=
  "Please enter your OpenAI API key in the sidebar."

/-- The fixed reply shown when no vector store is active (line 138). -/
def uploadFirstMessage : String :=
  "Please upload and process documents first."

/-- Outcome of `client.responses.create` when it is invoked: `ok text`
for a normal return whose `output_text` is `text`, `err e` when the call
raises an exception rendered as `e`. -/
inductive ChatOutcome where
  | ok : String → ChatOutcome
  | err : String → ChatOutcome
deriving DecidableEq, Repr

/-- Environment of one chat turn: whether a client was created (a
non-empty API key was entered, lines 21-27) and the provider outcome
that `client.responses.create` would produce if invoked. -/
structure ChatConfig where
  hasClient : Bool
  providerReply : ChatOutcome
deriving DecidableEq, Repr

/-- Result of one chat turn: the new session state, the text shown in
the assistant placeholder, and the provider calls performed. -/
structure ChatResult where
  state : SessionState
  displayed : String
  events : List Event
deriving DecidableEq, Repr

/-- The chat-input handler (lines 123-173).  The user message is appended
to the transcript first (line 125), before any check.  Then: no client →
the fixed API-key message (line 136); no vector store id → the fixed
upload-first message (line 138); otherwise `client.responses.create` is
invoked, and on success the reply is shown and appended as an assistant
message (lines 166-170), while on exception only an inline error is shown
and the transcript is left as it was after the user append (line 173). -/
def chatStep (s : SessionState) (c : ChatConfig) (prompt : String) :
    ChatResult :=
  let s1 : SessionState :=
    { s with messages := s.messages ++ [Message.mk "user" prompt] }
  if c.hasClient = false then
    { state := s1, displayed := keyMessage, events := [] }
  else
    match s1.vector_store_id with
    | none => { state := s1, displayed := uploadFirstMessage, events := [] }
    | some _ =>
        match c.providerReply with
        | ChatOutcome.ok text =>
            { state :=
                { s1 with
                  messages := s1.messages ++ [Message.mk "assistant" text] },
              displayed := text,
              events := [Event.chatCall] }
        | ChatOutcome.err e =>
            { state := s1,
              displayed := String.append "Error: " e,
              events := [Event.chatCall] }

/-- Session states reachable from the initial state through the app's
user actions.  Process Documents is only offered when at least one file
is selected and a client exists (line 75, `if uploaded_files and client:`),
so its batch is non-empty; Clear All Documents is only offered when
`st.session_state.file_ids` is non-empty (line 103). -/
inductive Reachable : SessionState → Prop where
  | init : Reachable initState
  | process (s : SessionState) (b : BatchOutcome) (hs : Reachable s)
      (hne : b.files ≠ []) : Reachable (processDocuments s b).1
  | clearStep (s : SessionState) (hs : Reachable s)
      (hne : s.file_ids ≠ []) : Reachable (clearAll s)
  | chat (s : SessionState) (c : ChatConfig) (p : String)
      (hs : Reachable s) : Reachable (chatStep s c p).state

/-- The handles of a batch whose upload succeeded, in order. -/
def uploadedIds (fs : List FileOutcome) : List String :=
  fs.filterMap (fun f => (upload_file_to_openai f.uploadResponse).1)

/-- Number of files in a batch whose upload succeeded. -/
def uploadOkCount (fs : List FileOutcome) : Nat :=
  (fs.filter (fun f => ((upload_file_to_openai f.uploadResponse).1).isSome)).length

/-- Number of files in a batch for which both the upload and the attach
succeeded (what the spec says the handle-list length equals). -/
def bothOkCount (fs : List FileOutcome) : Nat :=
  (fs.filter
    (fun f => ((upload_file_to_openai f.uploadResponse).1).isSome && f.attachOk)).length

/-- Display name carried by an upload-attempt event, if any. -/
def uploadAttemptName : Event → Option String
  | Event.uploadAttempt n => some n
  | _ => none

/-- File id carried by an attach-attempt event, if any. -/
def attachAttemptId : Event → Option String
  | Event.attachAttempt i => some i
  | _ => none

/-- Names of the files whose upload was attempted in a trace, in order. -/
def uploadAttemptNames (es : List Event) : List String :=
  es.filterMap uploadAttemptName

/-- File ids whose attach was attempted in a trace, in order. -/
def attachAttemptIds (es : List Event) : List String :=
  es.filterMap attachAttemptId

/-- The provider-call trace produced by the per-file loop on a batch:
one upload attempt per file, followed by an attach attempt whenever the
upload returned a handle. -/
def batchEvents : List FileOutcome → List Event
  | [] => []
  | f :: fs =>
      (match f.uploadResponse with
       | none => [Event.uploadAttempt f.name]
       | some fid => [Event.uploadAttempt f.name, Event.attachAttempt fid]) ++
        batchEvents fs

/-- Concrete batch: collection creation succeeds, one file whose upload
succeeds but whose attach fails. -/
def c1Batch : BatchOutcome :=
  { createResult := some "vs_new",
    files := [{ name := "a.pdf", uploadResponse := some "file_1", attachOk := false }] }

/-- Concrete batch: collection creation succeeds, one file whose upload
fails. -/
def c2Batch : BatchOutcome :=
  { createResult := some "vs_new",
    files := [{ name := "a.pdf", uploadResponse := none, attachOk := true }] }

/-- The session state the app reaches from `initState` by processing
`c2Batch`: a vector store is held but the handle list is empty. -/
def c2BadState : SessionState :=
  { messages := [], vector_store_id := some "vs_new", file_ids := [] }

/-- Concrete batch: collection creation succeeds, one file fully
succeeds. -/
def c2GoodBatch : BatchOutcome :=
  { createResult := some "vs_new",
    files := [{ name := "a.pdf", uploadResponse := some "file_1", attachOk := true }] }

/-- The session state the app reaches from `initState` by processing
`c2GoodBatch`. -/
def c2GoodState : SessionState :=
  { messages := [], vector_store_id := some "vs_new", file_ids := ["file_1"] }

/-- A prior session state with an active knowledge base, one old handle
and a non-empty transcript, used to exercise the reset-on-reprocess
behaviour. -/
def c3OldState : SessionState :=
  { messages := [Message.mk "user" "old question"],
    vector_store_id := some "vs_old",
    file_ids := ["file_old"] }

/-- Concrete two-file batch in which the first upload fails and the
second succeeds, used to exercise per-file independence. -/
def c8Batch : BatchOutcome :=
  { createResult := some "vs_new",
    files :=
      [{ name := "a.pdf", uploadResponse := none, attachOk := true },
       { name := "b.pdf", uploadResponse := some "file_2", attachOk := true }] }

/-- Chat environment with a client and a provider call that raises. -/
def c4Config : ChatConfig :=
  { hasClient := true, providerReply := ChatOutcome.err "rate limit" }

/-- Chat environment with a client and a provider call that succeeds. -/
def okConfig : ChatConfig :=
  { hasClient := true, providerReply := ChatOutcome.ok "fine" }

/-- Chat environment with no client (empty API key field). -/
def noClientConfig : ChatConfig :=
  { hasClient := false, providerReply := ChatOutcome.ok "unreachable" }

/-- `processFile` either leaves the state unchanged (failed upload) or
appends the returned handle, and emits the corresponding attempts. -/
theorem processFile_spec (s : SessionState) (f : FileOutcome) :
    processFile s f =
      match f.uploadResponse with
      | none => (s, [Event.uploadAttempt f.name])
      | some fid =>
          ({ s with file_ids := s.file_ids ++ [fid] },
           [Event.uploadAttempt f.name, Event.attachAttempt fid]) := by
  cases f with
  | mk n ur a => cases ur <;> rfl

/-- The per-file loop appends exactly the successfully uploaded handles
to `file_ids`, touches nothing else, and emits `batchEvents`. -/
theorem processLoop_spec (s : SessionState) (fs : List FileOutcome) :
    processLoop s fs =
      ({ s with file_ids := s.file_ids ++ uploadedIds fs }, batchEvents fs) := by
  induction fs generalizing s with
  | nil => simp [processLoop, uploadedIds, batchEvents]
  | cons f fs ih =>
      cases hur : f.uploadResponse with
      | none =>
          simp [processLoop, processFile_spec, hur, ih, uploadedIds,
            batchEvents, upload_file_to_openai]
      | some fid =>
          simp [processLoop, processFile_spec, hur, ih, uploadedIds,
            batchEvents, upload_file_to_openai]

/-- When collection creation succeeds, Process Documents yields a state
fully determined by the batch, with the trace of the per-file loop. -/
theorem processDocuments_some (s : SessionState) (b : BatchOutcome)
    (vid : String) (h : b.createResult = some vid) :
    processDocuments s b =
      ({ messages := [], vector_store_id := some vid,
         file_ids := uploadedIds b.files }, batchEvents b.files) := by
  simp [processDocuments, h, processLoop_spec]

/-- When collection creation fails, Process Documents changes nothing
and performs no further provider call. -/
theorem processDocuments_none (s : SessionState) (b : BatchOutcome)
    (h : b.createResult = none) : processDocuments s b = (s, []) := by
  simp [processDocuments, h]

/-- The number of successfully uploaded handles in a batch. -/
theorem uploadedIds_length (fs : List FileOutcome) :
    (uploadedIds fs).length = uploadOkCount fs := by
  induction fs with
  | nil => rfl
  | cons f fs ih =>
      cases hur : f.uploadResponse <;>
        simp [uploadedIds, uploadOkCount, upload_file_to_openai, hur,
          List.filter_cons] <;>
        simpa [uploadedIds, uploadOkCount] using ih

/-- Upload-attempt names in a batch trace are exactly the file names. -/
theorem uploadAttemptNames_batchEvents (fs : List FileOutcome) :
    uploadAttemptNames (batchEvents fs) = fs.map FileOutcome.name := by
  induction fs with
  | nil => rfl
  | cons f fs ih =>
      cases hur : f.uploadResponse <;>
        simp [batchEvents, uploadAttemptNames, hur, uploadAttemptName] <;>
        simpa [uploadAttemptNames] using ih

/-- Attach-attempt ids in a batch trace are exactly the successfully
uploaded handles. -/
theorem attachAttemptIds_batchEvents (fs : List FileOutcome) :
    attachAttemptIds (batchEvents fs) = uploadedIds fs := by
  induction fs with
  | nil => rfl
  | cons f fs ih =>
      cases hur : f.uploadResponse <;>
        simp [batchEvents, attachAttemptIds, uploadedIds, hur,
          attachAttemptId, upload_file_to_openai] <;>
        simpa [attachAttemptIds, uploadedIds] using ih

/-- A chat turn never changes the vector store id or the handle list. -/
theorem chatStep_preserves (s : SessionState) (c : ChatConfig) (p : String) :
    (chatStep s c p).state.vector_store_id = s.vector_store_id ∧
      (chatStep s c p).state.file_ids = s.file_ids := by
  rcases c with ⟨hc, pr⟩
  cases hc <;> cases pr <;> cases hv : s.vector_store_id <;>
    simp [chatStep, hv]

/-- C1 fails as stated: in a batch whose collection creation succeeded,
with one file whose upload succeeds and whose attach fails, the handle
list has length 1 while the number of files for which both upload and
attach succeeded is 0 — the code appends the handle before attempting
the attach (lines 90-91) and never removes it on attach failure. -/
theorem c1_counterexample :
    ((processDocuments initState c1Batch).1.file_ids).length ≠
      bothOkCount c1Batch.files := by
  decide

/-- C1 (amended): after a Process Documents batch whose collection
creation succeeded, the handle-list length equals the number of files
whose upload succeeded, regardless of attach outcomes. -/
theorem c1_handle_count (s : SessionState) (b : BatchOutcome) (vid : String)
    (h : b.createResult = some vid) :
    ((processDocuments s b).1.file_ids).length = uploadOkCount b.files := by
  rw [processDocuments_some s b vid h]
  exact uploadedIds_length b.files

/-- C1 witness: the amended count law at a concrete batch. -/
theorem c1_handle_count_witness :
    ((processDocuments initState c1Batch).1.file_ids).length =
      uploadOkCount c1Batch.files :=
  c1_handle_count initState c1Batch "vs_new" rfl

/-- C2 fails as stated: the state reached from the initial state by one
Process Documents action whose collection creation succeeds and whose
single upload fails holds a vector store id while its handle list is
empty, refuting the stated if-and-only-if. -/
theorem c2_counterexample :
    Reachable c2BadState ∧
      ¬ ((c2BadState.vector_store_id ≠ none) ↔ c2BadState.file_ids ≠ []) := by
  constructor
  · have h := Reachable.process initState c2Batch Reachable.init (by decide)
    have e : (processDocuments initState c2Batch).1 = c2BadState := by decide
    exact e ▸ h
  · decide

/-- C2 (amended): in every reachable session state, a non-empty handle
list implies a vector store is held; the converse direction fails when
every upload of a batch fails after a successful collection creation. -/
theorem c2_handles_imply_store (s : SessionState) (h : Reachable s) :
    s.file_ids ≠ [] → s.vector_store_id ≠ none := by
  induction h with
  | init => intro hne; simp [initState] at hne
  | process s b hs hbne ih =>
      intro hne
      cases hc : b.createResult with
      | none =>
          rw [processDocuments_none s b hc] at hne ⊢
          exact ih hne
      | some vid =>
          rw [processDocuments_some s b vid hc]
          simp
  | clearStep s hs hfne ih =>
      intro hne
      simp [clearAll] at hne
  | chat s c p hs ih =>
      intro hne
      rw [(chatStep_preserves s c p).1]
      exact ih (by rwa [(chatStep_preserves s c p).2] at hne)

/-- C2 witness: the amended implication at a concrete reachable state
with one handle. -/
theorem c2_handles_imply_store_witness : c2GoodState.vector_store_id ≠ none :=
  c2_handles_imply_store c2GoodState
    (by
      have h := Reachable.process initState c2GoodBatch Reachable.init (by decide)
      have e : (processDocuments initState c2GoodBatch).1 = c2GoodState := by decide
      exact e ▸ h)
    (by decide)

/-- C3: a Process Documents action whose collection creation succeeded
yields an empty transcript, the fresh vector store id, and a handle list
consisting exactly of this batch's successfully uploaded handles; the
result is independent of the prior state, so no old handle carries over
into the new list. -/
theorem c3_reset_on_reprocess (s : SessionState) (b : BatchOutcome)
    (vid : String) (h : b.createResult = some vid) :
    (processDocuments s b).1.messages = [] ∧
      (processDocuments s b).1.vector_store_id = some vid ∧
      (processDocuments s b).1.file_ids = uploadedIds b.files ∧
      (processDocuments s b).1 = (processDocuments initState b).1 := by
  rw [processDocuments_some s b vid h, processDocuments_some initState b vid h]
  simp

/-- C3 witness: reprocessing from a state with an old knowledge base,
an old handle and a non-empty transcript. -/
theorem c3_reset_on_reprocess_witness :
    (processDocuments c3OldState c1Batch).1.messages = [] ∧
      (processDocuments c3OldState c1Batch).1.vector_store_id = some "vs_new" ∧
      (processDocuments c3OldState c1Batch).1.file_ids = uploadedIds c1Batch.files ∧
      (processDocuments c3OldState c1Batch).1 = (processDocuments initState c1Batch).1 :=
  c3_reset_on_reprocess c3OldState c1Batch "vs_new" rfl

/-- C4: with a client and an active vector store, a chat call that
raises leaves the session state equal to the prior state with exactly
the user question appended — no assistant message, nothing else
changed. -/
theorem c4_failed_chat (s : SessionState) (c : ChatConfig) (p e : String)
    (hc : c.hasClient = true) (hv : s.vector_store_id ≠ none)
    (hr : c.providerReply = ChatOutcome.err e) :
    (chatStep s c p).state =
      { s with messages := s.messages ++ [Message.mk "user" p] } := by
  cases hv2 : s.vector_store_id with
  | none => exact absurd hv2 hv
  | some vid => simp [chatStep, hc, hv2, hr]

/-- C4 witness: a failed chat call at a concrete state. -/
theorem c4_failed_chat_witness :
    (chatStep c2GoodState c4Config "q").state =
      { c2GoodState with
        messages := c2GoodState.messages ++ [Message.mk "user" "q"] } :=
  c4_failed_chat c2GoodState c4Config "q" "rate limit" rfl (by decide) rfl

/-- C5: with no active vector store, a chat turn performs no provider
call and displays the fixed upload-first message when a client exists,
or the fixed API-key message when none does. -/
theorem c5_no_store_short_circuit (s : SessionState) (c : ChatConfig)
    (p : String) (hv : s.vector_store_id = none) :
    (chatStep s c p).events = [] ∧
      (chatStep s c p).displayed =
        (if c.hasClient then uploadFirstMessage else keyMessage) := by
  cases hc : c.hasClient <;> simp [chatStep, hc, hv]

/-- C5 witness: asking with a client but no vector store. -/
theorem c5_no_store_short_circuit_witness :
    (chatStep initState okConfig "q").events = [] ∧
      (chatStep initState okConfig "q").displayed =
        (if okConfig.hasClient then uploadFirstMessage else keyMessage) :=
  c5_no_store_short_circuit initState okConfig "q" rfl

/-- C6: the Clear All Documents action always yields a null vector
store id, an empty handle list and an empty transcript, whatever the
prior state. -/
theorem c6_clear (s : SessionState) :
    (clearAll s).vector_store_id = none ∧ (clearAll s).file_ids = [] ∧
      (clearAll s).messages = [] := by
  simp [clearAll]

/-- C7: when collection creation fails, the batch is aborted — the
session state is unchanged and the trace is empty, so no upload and no
attach is attempted for any file of the batch. -/
theorem c7_create_failure_aborts (s : SessionState) (b : BatchOutcome)
    (h : b.createResult = none) :
    (processDocuments s b).1 = s ∧ (processDocuments s b).2 = [] := by
  rw [processDocuments_none s b h]
  exact ⟨rfl, rfl⟩

/-- C7 witness: an aborted batch at a concrete state. -/
theorem c7_create_failure_aborts_witness :
    (processDocuments c3OldState
        { createResult := none, files := c1Batch.files }).1 = c3OldState ∧
      (processDocuments c3OldState
        { createResult := none, files := c1Batch.files }).2 = [] :=
  c7_create_failure_aborts c3OldState
    { createResult := none, files := c1Batch.files } rfl

/-- C8: when collection creation succeeds, an upload is attempted for
every file of the batch, in order, regardless of earlier upload or
attach failures, and an attach is attempted for exactly the files whose
upload returned a handle. -/
theorem c8_per_file_independent (s : SessionState) (b : BatchOutcome)
    (vid : String) (h : b.createResult = some vid) :
    uploadAttemptNames (processDocuments s b).2 = b.files.map FileOutcome.name ∧
      attachAttemptIds (processDocuments s b).2 = uploadedIds b.files := by
  rw [processDocuments_some s b vid h]
  exact ⟨uploadAttemptNames_batchEvents b.files,
    attachAttemptIds_batchEvents b.files⟩

/-- C8 witness: a two-file batch whose first upload fails still attempts
the second file. -/
theorem c8_per_file_independent_witness :
    uploadAttemptNames (processDocuments initState c8Batch).2 =
        c8Batch.files.map FileOutcome.name ∧
      attachAttemptIds (processDocuments initState c8Batch).2 =
        uploadedIds c8Batch.files :=
  c8_per_file_independent initState c8Batch "vs_new" rfl

/-- C9: after `upload_file_to_openai` returns, the transient file no
longer exists, on the success path (`os.remove` on line 42) and on the
failure path (lines 46-47) alike. -/
theorem c9_tmp_file_removed (r : Option String) :
    (upload_file_to_openai r).2 = false := by
  cases r <;> rfl

/-- C10: every chat turn appends the user question to the transcript
before any precondition check — on the missing-client path, the
missing-store path, the provider-success path and the provider-failure
path alike — and whenever the client is missing the API-key message is
displayed, so it takes precedence when the vector store is also
missing. -/
theorem c10_user_message_first (s : SessionState) (c : ChatConfig)
    (p : String) :
    (∃ rest, (chatStep s c p).state.messages =
        s.messages ++ Message.mk "user" p :: rest) ∧
      (c.hasClient = false → (chatStep s c p).displayed = keyMessage) := by
  constructor
  · cases hc : c.hasClient
    · exact ⟨[], by simp [chatStep, hc]⟩
    · cases hv : s.vector_store_id with
      | none => exact ⟨[], by simp [chatStep, hc, hv]⟩
      | some vid =>
          cases hr : c.providerReply with
          | ok t =>
              exact ⟨[Message.mk "assistant" t], by simp [chatStep, hc, hv, hr]⟩
          | err e => exact ⟨[], by simp [chatStep, hc, hv, hr]⟩
  · intro hc
    simp [chatStep, hc]

/-- C10 witness: with neither a client nor a vector store, the question
is still appended and the API-key message is displayed. -/
theorem c10_user_message_first_witness :
    (∃ rest, (chatStep initState noClientConfig "q").state.messages =
        initState.messages ++ Message.mk "user" "q" :: rest) ∧
      (noClientConfig.hasClient = false →
        (chatStep initState noClientConfig "q").displayed = keyMessage) :=
  c10_user_message_first initState noClientConfig "q"

end DocChat
